import Mathlib

/-
  Verification of the OED fragment: the cumulative-reset window predicate
  (`handleCumulativeReset`), the `Cik` conversion-coefficient store
  (`Cik.insert` / `Cik.getAll`), and the admin preferences submit guard
  (`PreferencesComponent`).

  JavaScript numbers are modelled as `JVal` (a rational, NaN, or undefined);
  moment objects as `JsMoment` (a validity flag plus a calendar day index and
  seconds within the day); moment comparisons with an invalid moment are false,
  as in moment.js.
-/

namespace OEDSpec

/-- JavaScript numeric value as it flows through the Cik matrix and the
Number() coercions of the preferences form: a real (rational) number, NaN,
or undefined. -/
inductive JVal where
  | undef : JVal
  | nan : JVal
  | num : ℚ → JVal
deriving DecidableEq, Repr

/-- JavaScript global isNaN: true on NaN and on undefined (which coerces to
NaN), false on any actual number. -/
def jsIsNaN : JVal → Bool
  | JVal.num _ => false
  | _ => true

/-- JavaScript `<` on numbers: false whenever either side is NaN/undefined. -/
def jsLt : JVal → JVal → Bool
  | JVal.num a, JVal.num b => decide (a < b)
  | _, _ => false

/-- JavaScript `>` on numbers: false whenever either side is NaN/undefined. -/
def jsGt : JVal → JVal → Bool
  | JVal.num a, JVal.num b => decide (b < a)
  | _, _ => false

/-- Model of a moment.js instant: a validity flag, a calendar day index
(days since an arbitrary epoch) and the second-of-day offset. An invalid
moment compares false against everything, as in moment.js. -/
structure JsMoment where
  valid : Bool
  day : Int
  sec : Int
deriving DecidableEq, Repr

/-- Absolute time of a moment in seconds since the epoch. -/
def momentAbs (m : JsMoment) : Int :=
  m.day * 86400 + m.sec

/-- moment.isSameOrAfter: false if either moment is invalid. -/
def isSameOrAfter (a b : JsMoment) : Bool :=
  a.valid && b.valid && decide (momentAbs b ≤ momentAbs a)

/-- moment.isSameOrBefore: false if either moment is invalid. -/
def isSameOrBefore (a b : JsMoment) : Bool :=
  a.valid && b.valid && decide (momentAbs a ≤ momentAbs b)

/-- Split a character list on the colon character, keeping empty fields. -/
def splitFields : List Char → List (List Char)
  | [] => [[]]
  | c :: rest =>
    if c = ':' then [] :: splitFields rest
    else
      match splitFields rest with
      | [] => [[c]]
      | f :: fs => (c :: f) :: fs

/-- Read a run of decimal digits as a number, accumulating left to right;
`none` on any non-digit character. -/
def parseDigitsAux : List Char → Nat → Option Nat
  | [], acc => some acc
  | c :: rest, acc =>
    if c.isDigit then parseDigitsAux rest (acc * 10 + (c.toNat - 48)) else none

/-- Read a nonempty all-digit field as a number. -/
def parseDigits : List Char → Option Nat
  | [] => none
  | c :: rest => parseDigitsAux (c :: rest) 0

/-- Parse an HH:mm:ss time-of-day string to seconds after midnight; `none`
when the string is not of that shape (this is the failure case in which
moment produces an invalid date from the parse). -/
def parseTimeOfDay (s : String) : Option Nat :=
  match splitFields s.data with
  | [h, m, sec] =>
    match parseDigits h, parseDigits m, parseDigits sec with
    | some hh, some mm, some ss =>
      if hh ≤ 23 && mm ≤ 59 && ss ≤ 59 then some (hh * 3600 + mm * 60 + ss)
      else none
    | _, _, _ => none
  | _ => none

/-- Model of `moment(testStart.format('MM-DD-YYYY') + " " + tod,
"MM/DD/YYYY HH:mm:ss")`: the parsed time of day placed on the calendar date
of `ts`. Invalid when the time-of-day string fails to parse, or when `ts`
itself is invalid (its format() is the unparseable string "Invalid date"). -/
def momentOnDate (ts : JsMoment) (tod : Option Nat) : JsMoment :=
  match tod with
  | none => { valid := false, day := 0, sec := 0 }
  | some s =>
    if ts.valid then { valid := true, day := ts.day, sec := (s : Int) }
    else { valid := false, day := 0, sec := 0 }

/-- Embedding of `handleCumulativeReset` (src/unnamed/part_000): returns
false when cumulative reset is disabled; otherwise builds the window bounds
on the reading's calendar date and tests inclusive membership. -/
def handleCumulativeReset (cumulativeReset : Bool) (resetStart resetEnd : String)
    (startTimestamp : JsMoment) : Bool :=
  if !cumulativeReset then
    false
  else
    let testStart := startTimestamp
    let testResetStart := momentOnDate testStart (parseTimeOfDay resetStart)
    let testResetEnd := momentOnDate testStart (parseTimeOfDay resetEnd)
    if isSameOrAfter testStart testResetStart && isSameOrBefore testStart testResetEnd then
      true
    else
      false

/-- One cell of the Cik conversion matrix: a 3-element tuple
(slope, intercept, unused marker). -/
abbrev Cell3 := JVal × JVal × JVal

/-- One stored row of the cik table, with the persisted column names. -/
structure CikRow where
  meter_unit_id : Nat
  non_meter_unit_id : Nat
  slope : JVal
  intercept : JVal
deriving DecidableEq, Repr

/-- In-memory Cik object as built by the `Cik` constructor / `mapRow`. -/
structure ConversionCoefficient where
  meterUnitId : Nat
  nonMeterUnitId : Nat
  slope : JVal
  intercept : JVal
deriving DecidableEq, Repr

/-- Failure of an underlying storage operation (delete, insert or query),
propagated to the caller unmodified. -/
inductive PersistenceError where
  | storageFailure : PersistenceError
deriving DecidableEq, Repr

/-- Fault model of the database connection: whether the delete-all fails,
whether the n-th insert issued in a call fails, and whether the read query
fails. The table contents themselves are threaded explicitly. -/
structure Conn where
  deleteFails : Bool
  insertFails : Nat → Bool
  queryFails : Bool

/-- Embedding of `Cik.mapRow`: build a Cik object from a row's data. -/
def Cik.mapRow (row : CikRow) : ConversionCoefficient :=
  { meterUnitId := row.meter_unit_id
    nonMeterUnitId := row.non_meter_unit_id
    slope := row.slope
    intercept := row.intercept }

/-- Embedding of `Cik.getAll`: read all rows and map each through
`Cik.mapRow`; fails if the query fails. -/
def Cik.getAll (conn : Conn) (table : List CikRow) :
    Except PersistenceError (List ConversionCoefficient) :=
  if conn.queryFails then Except.error PersistenceError.storageFailure
  else Except.ok (table.map Cik.mapRow)

/-- Inner loop of `Cik.insert` over the cells of one matrix row: `colIdx` is
the current column, `opIdx` counts the inserts issued so far in this call
(indexing into the fault schedule), `table` is the current table contents.
A cell whose slope is NaN is skipped; otherwise one insert is attempted,
and a failing insert aborts with the table as reached. -/
def Cik.insertColumns (conn : Conn) (rowIdx : Nat) (cells : List Cell3)
    (colIdx opIdx : Nat) (table : List CikRow) :
    Except PersistenceError Unit × (Nat × List CikRow) :=
  match cells with
  | [] => (Except.ok (), (opIdx, table))
  | cell :: rest =>
    if jsIsNaN cell.1 then
      Cik.insertColumns conn rowIdx rest (colIdx + 1) opIdx table
    else if conn.insertFails opIdx then
      (Except.error PersistenceError.storageFailure, (opIdx, table))
    else
      Cik.insertColumns conn rowIdx rest (colIdx + 1) (opIdx + 1)
        (table ++ [{ meter_unit_id := rowIdx, non_meter_unit_id := colIdx,
                     slope := cell.1, intercept := cell.2.1 }])

/-- Outer loop of `Cik.insert` over the matrix rows. -/
def Cik.insertRows (conn : Conn) (cik : List (List Cell3)) (rowIdx opIdx : Nat)
    (table : List CikRow) : Except PersistenceError Unit × (Nat × List CikRow) :=
  match cik with
  | [] => (Except.ok (), (opIdx, table))
  | cells :: rest =>
    match Cik.insertColumns conn rowIdx cells 0 opIdx table with
    | (Except.ok _, (opIdx2, table2)) => Cik.insertRows conn rest (rowIdx + 1) opIdx2 table2
    | other => other

/-- Embedding of `Cik.insert` (replaceAll): delete every current row, then
loop over the rows and columns of the cik array inserting each cell with an
actual (non-NaN) conversion. Returns the call's outcome together with the
table contents it leaves behind; a failing delete leaves the table as it
was, a failing insert leaves the rows inserted up to that point. -/
def Cik.insert (cik : List (List Cell3)) (conn : Conn) (table : List CikRow) :
    Except PersistenceError Unit × List CikRow :=
  if conn.deleteFails then (Except.error PersistenceError.storageFailure, table)
  else
    match Cik.insertRows conn cik 0 0 [] with
    | (r, (_, t)) => (r, t)

/-- Written from the spec's words, for comparison with `Cik.insert`: traverse
the matrix row-major; for each cell at (row, column) whose slope component is
a defined non-NaN number, emit a coefficient row with meterUnitId = row,
nonMeterUnitId = column, slope = cell[0], intercept = cell[1]; cells whose
slope is NaN/undefined produce no row. This is the per-row traversal from
column `colIdx` on. -/
def specCellRows (rowIdx colIdx : Nat) : List Cell3 → List CikRow
  | [] => []
  | cell :: rest =>
    if jsIsNaN cell.1 then specCellRows rowIdx (colIdx + 1) rest
    else { meter_unit_id := rowIdx, non_meter_unit_id := colIdx,
           slope := cell.1, intercept := cell.2.1 } :: specCellRows rowIdx (colIdx + 1) rest

/-- Row-major traversal of the whole matrix from row `rowIdx` on, per the
spec's words. -/
def specMatrixRows (rowIdx : Nat) : List (List Cell3) → List CikRow
  | [] => []
  | cells :: rest => specCellRows rowIdx 0 cells ++ specMatrixRows (rowIdx + 1) rest

/-- The table contents the spec prescribes after a successful replaceAll:
exactly one row per defined cell, in row-major order. -/
def specCoefficientRows (cik : List (List Cell3)) : List CikRow :=
  specMatrixRows 0 cik

/-- Model of a moment.duration: a validity flag plus its asSeconds() value. -/
structure JsDuration where
  valid : Bool
  seconds : ℚ
deriving DecidableEq, Repr

/-- Constants imported by the preferences component from adminSelectors
(MIN_VAL, MAX_VAL, MAX_ERRORS, MIN_DATE_MOMENT, MAX_DATE_MOMENT); their
values live outside the reviewed fragment, so they are carried as
parameters. -/
structure AdminConsts where
  MIN_VAL : ℚ
  MAX_VAL : ℚ
  MAX_ERRORS : ℚ
  MIN_DATE_MOMENT : JsMoment
  MAX_DATE_MOMENT : JsMoment

/-- Local preference state as read by the validity predicates of
`PreferencesComponent`: each field is the value of the library coercion the
component applies to the stored string — `moment.duration(...)` for the
reading frequency, `Number(...)` for the numeric fields (a number or NaN),
`moment(...)` for the date fields (possibly invalid). -/
structure LocalAdminPref where
  defaultMeterReadingFrequency : JsDuration
  defaultMeterMinimumValue : JVal
  defaultMeterMaximumValue : JVal
  defaultMeterMinimumDate : JsMoment
  defaultMeterMaximumDate : JsMoment
  defaultMeterReadingGap : JVal
  defaultMeterMaximumErrors : JVal
  defaultFileSizeLimit : JVal
  defaultWarningFileSize : JVal

/-- Embedding of `invalidReadingFreq`: invalid duration or a non-positive
number of seconds. -/
def invalidReadingFreq (p : LocalAdminPref) : Bool :=
  !p.defaultMeterReadingFrequency.valid || decide (p.defaultMeterReadingFrequency.seconds ≤ 0)

/-- Embedding of `invalidMinValue`: min below MIN_VAL or min above max
(JavaScript comparisons, false on NaN). -/
def invalidMinValue (consts : AdminConsts) (p : LocalAdminPref) : Bool :=
  jsLt p.defaultMeterMinimumValue (JVal.num consts.MIN_VAL) ||
    jsGt p.defaultMeterMinimumValue p.defaultMeterMaximumValue

/-- Embedding of `invalidMaxValue`: max above MAX_VAL or min above max. -/
def invalidMaxValue (consts : AdminConsts) (p : LocalAdminPref) : Bool :=
  jsGt p.defaultMeterMaximumValue (JVal.num consts.MAX_VAL) ||
    jsGt p.defaultMeterMinimumValue p.defaultMeterMaximumValue

/-- Embedding of `invalidMinDate`: invalid moment, or before MIN_DATE_MOMENT,
or after the configured maximum date. -/
def invalidMinDate (consts : AdminConsts) (p : LocalAdminPref) : Bool :=
  !p.defaultMeterMinimumDate.valid ||
    !isSameOrAfter p.defaultMeterMinimumDate consts.MIN_DATE_MOMENT ||
    !isSameOrBefore p.defaultMeterMinimumDate p.defaultMeterMaximumDate

/-- Embedding of `invalidMaxDate`: invalid moment, or after MAX_DATE_MOMENT,
or before the configured minimum date. -/
def invalidMaxDate (consts : AdminConsts) (p : LocalAdminPref) : Bool :=
  !p.defaultMeterMaximumDate.valid ||
    !isSameOrBefore p.defaultMeterMaximumDate consts.MAX_DATE_MOMENT ||
    !isSameOrAfter p.defaultMeterMaximumDate p.defaultMeterMinimumDate

/-- Embedding of `invalidReadingGap`: a negative gap. -/
def invalidReadingGap (p : LocalAdminPref) : Bool :=
  jsLt p.defaultMeterReadingGap (JVal.num 0)

/-- Embedding of `invalidMeterErrors`: negative or above MAX_ERRORS. -/
def invalidMeterErrors (consts : AdminConsts) (p : LocalAdminPref) : Bool :=
  jsLt p.defaultMeterMaximumErrors (JVal.num 0) ||
    jsGt p.defaultMeterMaximumErrors (JVal.num consts.MAX_ERRORS)

/-- Embedding of `invalidFileSizeLimit`: a negative limit. -/
def invalidFileSizeLimit (p : LocalAdminPref) : Bool :=
  jsLt p.defaultFileSizeLimit (JVal.num 0)

/-- Embedding of `invalidWarningFileSize`: negative or above the file size
limit. -/
def invalidWarningFileSize (p : LocalAdminPref) : Bool :=
  jsLt p.defaultWarningFileSize (JVal.num 0) ||
    jsGt p.defaultWarningFileSize p.defaultFileSizeLimit

/-- Embedding of the Submit button's `disabled` expression
(PreferencesComponent.tsx lines 443-445): no unsaved changes, or any field
validity predicate reporting invalid. -/
def submitDisabled (hasChanges : Bool) (consts : AdminConsts) (p : LocalAdminPref) : Bool :=
  !hasChanges || invalidReadingFreq p || invalidMinValue consts p || invalidMaxValue consts p ||
    invalidMinDate consts p || invalidMaxDate consts p ||
    invalidReadingGap p || invalidMeterErrors consts p || invalidFileSizeLimit p ||
    invalidWarningFileSize p

/-- A matrix cell with no conversion defined (slope NaN). -/
def nanCell : Cell3 := (JVal.nan, JVal.nan, JVal.nan)

/-- A matrix cell with slope 1.5 and intercept 0.2. -/
def exCell : Cell3 := (JVal.num (3 / 2), JVal.num (1 / 5), JVal.nan)

/-- Test matrix from the spec: one defined cell at row 2, column 5
(slope 1.5, intercept 0.2), all other cells NaN. -/
def exMatrix : List (List Cell3) :=
  [List.replicate 6 nanCell, List.replicate 6 nanCell,
   [nanCell, nanCell, nanCell, nanCell, nanCell, exCell]]

/-- A second matrix, different from `exMatrix`: one defined cell at
row 0, column 1 with slope 7 and intercept 0. -/
def exMatrixB : List (List Cell3) :=
  [[nanCell, (JVal.num 7, JVal.num 0, JVal.nan)]]

/-- A matrix with two defined cells, for exercising a failure after one
successful insert. -/
def exMatrixTwo : List (List Cell3) :=
  [[exCell, nanCell], [(JVal.num 4, JVal.num 9, JVal.nan)]]

/-- A connection on which every storage operation succeeds. -/
def okConn : Conn :=
  { deleteFails := false, insertFails := fun _ => false, queryFails := false }

/-- A connection whose delete and query succeed and whose inserts succeed up
to the k-th one, every later insert failing. -/
def failAfterConn (k : Nat) : Conn :=
  { deleteFails := false, insertFails := fun j => decide (k ≤ j), queryFails := false }

/-- A nonempty pre-existing table, to exercise the delete-all step. -/
def preTable : List CikRow :=
  [{ meter_unit_id := 9, non_meter_unit_id := 9, slope := JVal.num 1, intercept := JVal.num 2 }]

/-- The single row the spec expects `exMatrix` to produce. -/
def oneRowTable : List CikRow :=
  [{ meter_unit_id := 2, non_meter_unit_id := 5, slope := JVal.num (3 / 2),
     intercept := JVal.num (1 / 5) }]

/-- A malformed time-of-day string. -/
def badTod : String := "not-a-time"

/-- The time-of-day string 23:00:00. -/
def todStart : String := "23:00:00"

/-- The time-of-day string 23:59:59. -/
def todEnd : String := "23:59:59"

/-- The time-of-day string 01:00:00. -/
def todOne : String := "01:00:00"

/-- A valid reading timestamp at 23:30:00 on some calendar day. -/
def exTs : JsMoment := { valid := true, day := 19478, sec := 84600 }

/- ------------------------------------------------------------------ -/
/- Helper lemmas                                                      -/
/- ------------------------------------------------------------------ -/

theorem insertColumns_ok (conn : Conn) (r : Nat) (cells : List Cell3) :
    ∀ (c0 k0 : Nat) (acc : List CikRow) (k : Nat) (t : List CikRow),
    Cik.insertColumns conn r cells c0 k0 acc = (Except.ok (), (k, t)) →
    t = acc ++ specCellRows r c0 cells ∧ k = k0 + (specCellRows r c0 cells).length := by
  induction cells with
  | nil =>
    intro c0 k0 acc k t h
    simp [Cik.insertColumns] at h
    simp [specCellRows, h.1.symm, h.2.symm]
  | cons cell rest ih =>
    intro c0 k0 acc k t h
    by_cases hn : jsIsNaN cell.1 = true
    · simp only [Cik.insertColumns, hn, if_true] at h
      simpa [specCellRows, hn] using ih (c0 + 1) k0 acc k t h
    · simp only [Cik.insertColumns, hn, Bool.false_eq_true, if_false] at h
      by_cases hf : conn.insertFails k0 = true
      · simp [hf] at h
      · simp only [hf, Bool.false_eq_true, if_false] at h
        obtain ⟨h1, h2⟩ := ih (c0 + 1) (k0 + 1)
          (acc ++ [{ meter_unit_id := r, non_meter_unit_id := c0,
                     slope := cell.1, intercept := cell.2.1 }]) k t h
        constructor
        · simp [specCellRows, hn, h1, List.append_assoc]
        · simp only [specCellRows, hn, Bool.false_eq_true, if_false, List.length_cons]
          omega

theorem insertRows_ok (conn : Conn) (cik : List (List Cell3)) :
    ∀ (r0 k0 : Nat) (acc : List CikRow) (k : Nat) (t : List CikRow),
    Cik.insertRows conn cik r0 k0 acc = (Except.ok (), (k, t)) →
    t = acc ++ specMatrixRows r0 cik ∧ k = k0 + (specMatrixRows r0 cik).length := by
  induction cik with
  | nil =>
    intro r0 k0 acc k t h
    simp [Cik.insertRows] at h
    simp [specMatrixRows, h.1.symm, h.2.symm]
  | cons cells rest ih =>
    intro r0 k0 acc k t h
    rcases hc : Cik.insertColumns conn r0 cells 0 k0 acc with ⟨e, k2, t2⟩
    simp only [Cik.insertRows, hc] at h
    cases e with
    | error pe => simp at h
    | ok u =>
      simp only at h
      obtain ⟨hc1, hc2⟩ := insertColumns_ok conn r0 cells 0 k0 acc k2 t2 hc
      obtain ⟨h1, h2⟩ := ih (r0 + 1) k2 t2 k t h
      constructor
      · simp [specMatrixRows, h1, hc1, List.append_assoc]
      · simp only [specMatrixRows, List.length_append]
        omega

theorem insert_ok_table (cik : List (List Cell3)) (conn : Conn) (table t : List CikRow)
    (h : Cik.insert cik conn table = (Except.ok (), t)) : t = specCoefficientRows cik := by
  by_cases hd : conn.deleteFails = true
  · simp [Cik.insert, hd] at h
  · rcases hr : Cik.insertRows conn cik 0 0 [] with ⟨e, k2, t2⟩
    simp only [Cik.insert, hd, Bool.false_eq_true, if_false, hr, Prod.mk.injEq] at h
    obtain ⟨he, ht⟩ := h
    subst he
    obtain ⟨h1, _⟩ := insertRows_ok conn cik 0 0 [] k2 t2 hr
    simpa [specCoefficientRows, ht.symm] using h1

theorem insertColumns_threshold (conn : Conn) (r : Nat) (cells : List Cell3) :
    ∀ (c0 k0 m : Nat) (acc : List CikRow),
    (∀ j, conn.insertFails j = decide (k0 + m ≤ j)) →
    Cik.insertColumns conn r cells c0 k0 acc =
      (if m < (specCellRows r c0 cells).length then
        (Except.error PersistenceError.storageFailure,
          (k0 + m, acc ++ (specCellRows r c0 cells).take m))
      else
        (Except.ok (), (k0 + (specCellRows r c0 cells).length, acc ++ specCellRows r c0 cells))) := by
  induction cells with
  | nil =>
    intro c0 k0 m acc hsched
    simp [Cik.insertColumns, specCellRows]
  | cons cell rest ih =>
    intro c0 k0 m acc hsched
    by_cases hn : jsIsNaN cell.1 = true
    · simp only [Cik.insertColumns, hn, if_true, specCellRows]
      exact ih (c0 + 1) k0 m acc hsched
    · rcases m with _ | m
      · have hf : conn.insertFails k0 = true := by
          rw [hsched k0]
          exact decide_eq_true (by omega)
        simp [Cik.insertColumns, hn, hf, specCellRows]
      · have hf : conn.insertFails k0 = false := by
          rw [hsched k0]
          exact decide_eq_false (by omega)
        have hsched2 : ∀ j, conn.insertFails j = decide ((k0 + 1) + m ≤ j) := by
          intro j
          rw [hsched j]
          have harith : k0 + (m + 1) = (k0 + 1) + m := by omega
          rw [harith]
        have hrec := ih (c0 + 1) (k0 + 1) m
          (acc ++ [CikRow.mk r c0 cell.1 cell.2.1]) hsched2
        simp only [Cik.insertColumns, hn, Bool.false_eq_true, if_false, hf]
        rw [hrec]
        by_cases hm : m < (specCellRows r (c0 + 1) rest).length
        · rw [if_pos hm]
          simp only [specCellRows, hn, Bool.false_eq_true, if_false, List.length_cons,
            List.take_succ_cons]
          rw [if_pos (show m + 1 < (specCellRows r (c0 + 1) rest).length + 1 from by omega)]
          have harith : k0 + 1 + m = k0 + (m + 1) := by omega
          rw [harith, List.append_assoc, List.singleton_append]
        · rw [if_neg hm]
          simp only [specCellRows, hn, Bool.false_eq_true, if_false, List.length_cons]
          rw [if_neg (show ¬ (m + 1 < (specCellRows r (c0 + 1) rest).length + 1) from by omega)]
          have harith : k0 + 1 + (specCellRows r (c0 + 1) rest).length =
              k0 + ((specCellRows r (c0 + 1) rest).length + 1) := by omega
          rw [harith, List.append_assoc, List.singleton_append]

theorem insertRows_threshold (conn : Conn) (cik : List (List Cell3)) :
    ∀ (r0 k0 m : Nat) (acc : List CikRow),
    (∀ j, conn.insertFails j = decide (k0 + m ≤ j)) →
    Cik.insertRows conn cik r0 k0 acc =
      (if m < (specMatrixRows r0 cik).length then
        (Except.error PersistenceError.storageFailure,
          (k0 + m, acc ++ (specMatrixRows r0 cik).take m))
      else
        (Except.ok (), (k0 + (specMatrixRows r0 cik).length, acc ++ specMatrixRows r0 cik))) := by
  induction cik with
  | nil =>
    intro r0 k0 m acc hsched
    simp [Cik.insertRows, specMatrixRows]
  | cons cells rest ih =>
    intro r0 k0 m acc hsched
    have hcols := insertColumns_threshold conn r0 cells 0 k0 m acc hsched
    by_cases hm : m < (specCellRows r0 0 cells).length
    · rw [if_pos hm] at hcols
      simp only [Cik.insertRows, hcols, specMatrixRows, List.length_append]
      rw [if_pos (show m < (specCellRows r0 0 cells).length +
        (specMatrixRows (r0 + 1) rest).length from by omega)]
      rw [List.take_append_eq_append_take, Nat.sub_eq_zero_of_le (le_of_lt hm),
        List.take_zero, List.append_nil]
    · rw [if_neg hm] at hcols
      have hsched2 : ∀ j, conn.insertFails j =
          decide ((k0 + (specCellRows r0 0 cells).length) +
            (m - (specCellRows r0 0 cells).length) ≤ j) := by
        intro j
        rw [hsched j]
        have harith : k0 + m = (k0 + (specCellRows r0 0 cells).length) +
            (m - (specCellRows r0 0 cells).length) := by omega
        rw [harith]
      have hrec := ih (r0 + 1) (k0 + (specCellRows r0 0 cells).length)
        (m - (specCellRows r0 0 cells).length) (acc ++ specCellRows r0 0 cells) hsched2
      simp only [Cik.insertRows, hcols]
      rw [hrec]
      by_cases hm2 : m - (specCellRows r0 0 cells).length < (specMatrixRows (r0 + 1) rest).length
      · rw [if_pos hm2]
        simp only [specMatrixRows, List.length_append]
        rw [if_pos (show m < (specCellRows r0 0 cells).length +
          (specMatrixRows (r0 + 1) rest).length from by omega)]
        rw [List.take_append_eq_append_take,
          List.take_of_length_le (show (specCellRows r0 0 cells).length ≤ m from by omega)]
        have harith : k0 + (specCellRows r0 0 cells).length +
            (m - (specCellRows r0 0 cells).length) = k0 + m := by omega
        rw [harith, List.append_assoc]
      · rw [if_neg hm2]
        simp only [specMatrixRows, List.length_append]
        rw [if_neg (show ¬ (m < (specCellRows r0 0 cells).length +
          (specMatrixRows (r0 + 1) rest).length) from by omega)]
        have harith : k0 + (specCellRows r0 0 cells).length +
            (specMatrixRows (r0 + 1) rest).length =
            k0 + ((specCellRows r0 0 cells).length +
              (specMatrixRows (r0 + 1) rest).length) := by omega
        rw [harith, List.append_assoc]

/-- Rows mapped by `Cik.getAll` on the example table. -/
def preCoefficients : List ConversionCoefficient :=
  [{ meterUnitId := 9, nonMeterUnitId := 9, slope := JVal.num 1, intercept := JVal.num 2 }]

/-- The single row produced by `exMatrixB`. -/
def rowBTable : List CikRow :=
  [{ meter_unit_id := 0, non_meter_unit_id := 1, slope := JVal.num 7, intercept := JVal.num 0 }]

/- ------------------------------------------------------------------ -/
/- Claim theorems                                                     -/
/- ------------------------------------------------------------------ -/

/-- Claim C1: after a successful `Cik.insert` (replaceAll) call, the stored
table is exactly the row-major list of coefficient rows for the cells whose
slope is a defined non-NaN number — meterUnitId = row, nonMeterUnitId =
column, slope = cell[0], intercept = cell[1] — and nothing else; NaN or
undefined slopes produce no row. -/
theorem C1_replaceAll_stores_exactly_defined_cells
    (cik : List (List Cell3)) (conn : Conn) (table t : List CikRow)
    (h : Cik.insert cik conn table = (Except.ok (), t)) :
    t = specCoefficientRows cik :=
  insert_ok_table cik conn table t h

/-- Witness for C1 on the spec's test matrix: one defined cell at
(row 2, column 5, slope 1.5, intercept 0.2), all other cells NaN, yields
exactly that one stored row. -/
theorem C1_replaceAll_witness : oneRowTable = specCoefficientRows exMatrix :=
  C1_replaceAll_stores_exactly_defined_cells exMatrix okConn preTable oneRowTable rfl

/-- Claim C2: with cumulative reset enabled and both window strings parsing,
the predicate returns true iff the reading timestamp lies within
[windowStart, windowEnd] inclusive on both ends, the window bounds being the
configured times of day placed on the reading's own calendar date. -/
theorem C2_reset_window_iff_within_bounds
    (rs re : String) (ts : JsMoment) (ws we : Nat)
    (hts : ts.valid = true)
    (hrs : parseTimeOfDay rs = some ws) (hre : parseTimeOfDay re = some we) :
    handleCumulativeReset true rs re ts = true ↔
      (ts.day * 86400 + (ws : Int) ≤ momentAbs ts ∧
       momentAbs ts ≤ ts.day * 86400 + (we : Int)) := by
  simp only [handleCumulativeReset, hrs, hre, momentOnDate, hts, if_true,
    isSameOrAfter, isSameOrBefore, momentAbs, Bool.not_true, Bool.false_eq_true,
    if_false, Bool.and_eq_true, decide_eq_true_eq]
  constructor
  · intro h
    split at h
    · omega
    · simp at h
  · intro h
    rw [if_pos]
    simp only [Bool.true_and, true_and]
    omega

/-- Witness for C2: window 23:00:00-23:59:59 and a valid reading at 23:30:00
on the same day; the hypotheses are discharged by computation. -/
theorem C2_reset_window_witness :
    handleCumulativeReset true todStart todEnd exTs = true ↔
      (exTs.day * 86400 + ((82800 : Nat) : Int) ≤ momentAbs exTs ∧
       momentAbs exTs ≤ exTs.day * 86400 + ((86399 : Nat) : Int)) :=
  C2_reset_window_iff_within_bounds todStart todEnd exTs 82800 86399 rfl rfl rfl

/-- Claim C3: with cumulativeResetEnabled false the predicate returns false
unconditionally, whatever the window strings and timestamp are. -/
theorem C3_reset_disabled_returns_false (rs re : String) (ts : JsMoment) :
    handleCumulativeReset false rs re ts = false := rfl

/-- Claim C4: replaceAll is a full replace, not a merge: after two
successful `Cik.insert` calls the table reflects only the second matrix's
defined cells, independent of the first matrix and of any earlier rows. -/
theorem C4_replaceAll_full_replace
    (cik1 cik2 : List (List Cell3)) (conn1 conn2 : Conn) (t0 t1 t2 : List CikRow)
    (_h1 : Cik.insert cik1 conn1 t0 = (Except.ok (), t1))
    (h2 : Cik.insert cik2 conn2 t1 = (Except.ok (), t2)) :
    t2 = specCoefficientRows cik2 :=
  insert_ok_table cik2 conn2 t1 t2 h2

/-- Witness for C4: two successive successful calls with different matrices;
storage afterwards holds exactly the second matrix's defined cell. -/
theorem C4_replaceAll_witness : rowBTable = specCoefficientRows exMatrixB :=
  C4_replaceAll_full_replace exMatrix exMatrixB okConn okConn preTable oneRowTable
    rowBTable rfl rfl

/-- Claim C5: a window whose end time of day is strictly earlier than its
start (crossing midnight) never matches any reading timestamp, even with
cumulative reset enabled: there is no wraparound handling. -/
theorem C5_midnight_crossing_window_never_matches
    (rs re : String) (ws we : Nat)
    (hrs : parseTimeOfDay rs = some ws) (hre : parseTimeOfDay re = some we)
    (hlt : we < ws) (ts : JsMoment) :
    handleCumulativeReset true rs re ts = false := by
  by_cases hv : ts.valid = true
  · simp only [handleCumulativeReset, hrs, hre, momentOnDate, hv, if_true,
      isSameOrAfter, isSameOrBefore, momentAbs, Bool.not_true, Bool.false_eq_true,
      if_false, Bool.and_eq_true, decide_eq_true_eq]
    rw [if_neg]
    simp only [Bool.true_and, true_and, not_and, not_le]
    intro hws
    omega
  · have hv2 : ts.valid = false := by simpa using hv
    simp [handleCumulativeReset, hv2, isSameOrAfter]

/-- Witness for C5: the spec's midnight-crossing window 23:00:00-01:00:00
does not match a reading at 23:30:00. -/
theorem C5_midnight_crossing_witness :
    handleCumulativeReset true todStart todOne exTs = false :=
  C5_midnight_crossing_window_never_matches todStart todOne 82800 3600 rfl rfl
    (by omega) exTs

/-- Claim C6 counterexample: on a malformed time-of-day string the function
does not surface any error — it is a total Bool-valued function and silently
returns false, contradicting the claim that such inputs yield a validation
error rather than a silent "no match". -/
theorem C6_counterexample_silent_false_on_malformed_input :
    parseTimeOfDay badTod = none ∧
      handleCumulativeReset true badTod todStart exTs = false :=
  ⟨rfl, rfl⟩

/-- Claim C6 as amended: when a window time-of-day string cannot be parsed
or the reading timestamp is invalid, the moment comparisons against the
resulting invalid moments are false, and `handleCumulativeReset` silently
returns false; no validation error is surfaced to the caller. -/
theorem C6_amended_invalid_inputs_silently_false
    (c : Bool) (rs re : String) (ts : JsMoment)
    (h : parseTimeOfDay rs = none ∨ parseTimeOfDay re = none ∨ ts.valid = false) :
    handleCumulativeReset c rs re ts = false := by
  cases c with
  | false => rfl
  | true =>
    rcases h with h | h | h
    · simp [handleCumulativeReset, h, momentOnDate, isSameOrAfter]
    · simp [handleCumulativeReset, h, momentOnDate, isSameOrBefore]
    · simp [handleCumulativeReset, h, isSameOrAfter]

/-- Witness for the amended C6: the malformed start string makes the call
return false rather than an error. -/
theorem C6_amended_witness :
    handleCumulativeReset true badTod todStart exTs = false :=
  C6_amended_invalid_inputs_silently_false true badTod todStart exTs (Or.inl rfl)

/-- Claim C7: replaceAll is not atomic: with a successful delete and a fault
schedule on which the first k inserts succeed and the next fails (k below
the number of defined cells), the call returns the storage error and leaves
the table holding exactly the first k newly inserted rows — neither the
pre-call contents nor the full intended contents. -/
theorem C7_partial_failure_leaves_partial_table
    (cik : List (List Cell3)) (conn : Conn) (t0 : List CikRow) (k : Nat)
    (hd : conn.deleteFails = false)
    (hf : ∀ j, conn.insertFails j = decide (k ≤ j))
    (hk : k < (specCoefficientRows cik).length) :
    Cik.insert cik conn t0 =
      (Except.error PersistenceError.storageFailure, (specCoefficientRows cik).take k) := by
  have hsched : ∀ j, conn.insertFails j = decide (0 + k ≤ j) := by
    intro j
    rw [hf j, Nat.zero_add]
  have hrows := insertRows_threshold conn cik 0 0 k [] hsched
  rw [if_pos (show k < (specMatrixRows 0 cik).length from hk)] at hrows
  simp only [Cik.insert, hd, Bool.false_eq_true, if_false, hrows, Nat.zero_add,
    List.nil_append, specCoefficientRows]

/-- Witness for C7: a matrix with two defined cells and a connection failing
from the second insert on leaves exactly the first new row in the table. -/
theorem C7_partial_failure_witness :
    Cik.insert exMatrixTwo (failAfterConn 1) preTable =
      (Except.error PersistenceError.storageFailure,
        (specCoefficientRows exMatrixTwo).take 1) :=
  C7_partial_failure_leaves_partial_table exMatrixTwo (failAfterConn 1) preTable 1
    rfl (fun _ => rfl) (by decide)

/-- Claim C8: a successful `Cik.getAll` returns exactly the stored rows in
storage order, each projected field-by-field to a ConversionCoefficient,
with no filtering and no computation on the values. -/
theorem C8_getAll_projects_rows_in_order
    (conn : Conn) (table : List CikRow) (cs : List ConversionCoefficient)
    (h : Cik.getAll conn table = Except.ok cs) :
    cs = table.map (fun row =>
      { meterUnitId := row.meter_unit_id
        nonMeterUnitId := row.non_meter_unit_id
        slope := row.slope
        intercept := row.intercept }) := by
  by_cases hq : conn.queryFails = true
  · simp [Cik.getAll, hq] at h
  · simp only [Cik.getAll, hq, Bool.false_eq_true, if_false, Except.ok.injEq] at h
    rw [← h]
    rfl

/-- Witness for C8 on the concrete one-row table. -/
theorem C8_getAll_witness :
    preCoefficients = preTable.map (fun row =>
      { meterUnitId := row.meter_unit_id
        nonMeterUnitId := row.non_meter_unit_id
        slope := row.slope
        intercept := row.intercept }) :=
  C8_getAll_projects_rows_in_order okConn preTable preCoefficients rfl

/-- Claim C9: the preferences Submit button's disabled predicate is false —
submission is possible — exactly when there are unsaved changes and every
field-validity predicate reports the local preference state valid; so it is
disabled whenever there are no unsaved changes or any check fails. -/
theorem C9_submit_enabled_iff_changes_and_all_valid
    (hasChanges : Bool) (consts : AdminConsts) (p : LocalAdminPref) :
    submitDisabled hasChanges consts p = false ↔
      (hasChanges = true ∧ invalidReadingFreq p = false ∧
       invalidMinValue consts p = false ∧ invalidMaxValue consts p = false ∧
       invalidMinDate consts p = false ∧ invalidMaxDate consts p = false ∧
       invalidReadingGap p = false ∧ invalidMeterErrors consts p = false ∧
       invalidFileSizeLimit p = false ∧ invalidWarningFileSize p = false) := by
  simp only [submitDisabled, Bool.or_eq_false_iff, Bool.not_eq_false', and_assoc]

end OEDSpec
